import Mathlib

/-!
Verification development for the event-validation handler (`handler.py`).

The source is a pure dispatcher over structured event payloads with three
validators (user signup, payment, file upload), each returning a uniform
`{status, message, data, errors}` envelope.

Embedding choices:
* Python values are modelled by the inductive type `Value`; dicts are
  association lists with string keys (looked up at the first occurrence,
  matching dict-key uniqueness in the source's inputs of interest).
* `isinstance(x, int)` is true for Python booleans (bool is a subclass of
  int); `isinstInt` reflects that faithfully, and `intVal`/`numVal` give the
  numeric value of a bool (False = 0, True = 1) as Python arithmetic does.
* Strings carry Lean `String`s; `str.lower`/`str.upper`/`str.strip` are
  modelled on the ASCII fragment of Python's case and whitespace rules,
  which agree with Python on every character that any check in the source
  can compare against.
* Float arithmetic on the payment success path is modelled over exact
  rationals (`pyRound3` is round-half-to-even at 3 decimal places); binary
  floating point is not modelled bit-exactly.
-/

/-- A Python value as the handler can observe it: `None`, `bool`, `int`,
`float`, `str`, lists, and string-keyed dicts. -/
inductive Value where
  | none
  | bool (b : Bool)
  | int (n : Int)
  | float (q : ℚ)
  | str (s : String)
  | list (elems : List Value)
  | dict (entries : List (String × Value))

/-- Dict lookup: first entry with the given key (`event.get(k)` /
`event[k]`). -/
def lookup (entries : List (String × Value)) (k : String) : Option Value :=
  match entries with
  | [] => Option.none
  | (k', v) :: rest => if k' = k then Option.some v else lookup rest k

/-- `isinstance(x, dict)`. -/
def isDict : Value → Bool
  | .dict _ => true
  | _ => false

/-- `isinstance(x, int)` — true for Python bools as well, since `bool`
subclasses `int`. -/
def isinstInt : Value → Bool
  | .bool _ => true
  | .int _ => true
  | _ => false

/-- `isinstance(x, str)`. -/
def isinstStr : Value → Bool
  | .str _ => true
  | _ => false

/-- `isinstance(x, (int, float))` — again true for bools. -/
def isinstNum : Value → Bool
  | .bool _ => true
  | .int _ => true
  | .float _ => true
  | _ => false

/-- Numeric value of a bool/int as Python arithmetic sees it
(`False == 0`, `True == 1`); only used under an `isinstInt` guard. -/
def intVal : Value → Int
  | .bool b => if b then 1 else 0
  | .int n => n
  | _ => 0

/-- Numeric value of a bool/int/float; only used under an `isinstNum`
guard. -/
def numVal : Value → ℚ
  | .bool b => if b then 1 else 0
  | .int n => (n : ℚ)
  | .float q => q
  | _ => 0

/-- The underlying string of a `str` value; only used under an `isinstStr`
guard. -/
def asStr : Value → String
  | .str s => s
  | _ => ""

/-- Python whitespace (`\s` in `re`, `str.strip`), ASCII fragment. -/
def pyIsSpace (c : Char) : Bool :=
  c = ' ' || c = '\t' || c = '\n' || c = '\r' || c = '\x0b' || c = '\x0c'

/-- `str.lower()` (ASCII fragment). -/
def strLower (s : String) : String := String.mk (s.data.map Char.toLower)

/-- `str.upper()` (ASCII fragment). -/
def strUpper (s : String) : String := String.mk (s.data.map Char.toUpper)

/-- `str.strip()`: drop leading and trailing whitespace. -/
def strStrip (s : String) : String :=
  String.mk (((s.data.dropWhile pyIsSpace).reverse.dropWhile pyIsSpace).reverse)

/-- Whether an error string has the shape of a presence-phase error, i.e.
starts with `"Missing field: "`. -/
def hasMissingForm (s : String) : Bool :=
  List.isPrefixOf "Missing field: ".data s.data

/-- Characters admissible in each segment of the email pattern: the
character class `[^@\s]`. -/
def noAtOrSpace (l : List Char) : Bool :=
  l.all (fun c => c ≠ '@' && !(pyIsSpace c))

/-- Whole-string match of `[^@\s]+@[^@\s]+\.[^@\s]+`.  The matched `@` must
be the only `@` (none may occur in any class), the part before it must be a
nonempty whitespace-free segment, and after it there must be a `.` that is
neither the first nor the last remaining character. -/
def emailCoreMatch (t : List Char) : Bool :=
  let p := t.takeWhile (· ≠ '@')
  match t.dropWhile (· ≠ '@') with
  | [] => false
  | _ :: b => !p.isEmpty && noAtOrSpace p && noAtOrSpace b &&
      ((b.drop 1).dropLast.contains '.')

/-- `is_valid_email`: `re.match(r"^[^@\s]+@[^@\s]+\.[^@\s]+$", email)`.
Python's `$` also matches just before a single trailing newline. -/
def is_valid_email (s : String) : Bool :=
  emailCoreMatch s.data ||
    (s.data.getLast? = Option.some '\n' && emailCoreMatch s.data.dropLast)

/-- The uniform response shape `{status, message, data, errors}`. -/
structure ResultEnvelope where
  status : String
  message : String
  data : List (String × Value)
  errors : List String

/-- `error_response(errors)`. -/
def error_response (errors : List String) : ResultEnvelope :=
  { status := "error", message := "Validation failed", data := [], errors := errors }

/-- Presence phase shared by all three validators: one
`"Missing field: <name>"` per absent required field, in the order of
`fields`. -/
def missingErrors (event : List (String × Value)) (fields : List String) : List String :=
  (fields.filter (fun f => (lookup event f).isNone)).map
    (fun f => "Missing field: " ++ f)

def signupRequired : List String := ["user_id", "email", "plan"]

/-- Whether a value passes `is_valid_email` as a string (the source guards
the call with `isinstance(email, str)`). -/
def valIsValidEmail : Value → Bool
  | .str s => is_valid_email s
  | _ => false

/-- `plan.lower() in ["free", "pro", "edu"]` for a string value. -/
def valPlanOk : Value → Bool
  | .str s => ["free", "pro", "edu"].contains (strLower s)
  | _ => false

/-- Type/content phase of the signup validator: the three checks in source
order, accumulated without short-circuiting. -/
def signupFieldErrors (user_id email plan : Value) : List String :=
  (if isinstInt user_id = false then ["user_id must be int"] else []) ++
  (if isinstStr email = false ∨ valIsValidEmail email = false
    then ["Invalid email"] else []) ++
  (if isinstStr plan = false ∨ valPlanOk plan = false
    then ["Invalid plan"] else [])

/-- `handle_user_signup`. -/
def handle_user_signup (event : List (String × Value)) : ResultEnvelope :=
  let missing := missingErrors event signupRequired
  if missing ≠ [] then error_response missing
  else
    let user_id := (lookup event "user_id").getD Value.none
    let email := (lookup event "email").getD Value.none
    let plan := (lookup event "plan").getD Value.none
    let errors := signupFieldErrors user_id email plan
    if errors ≠ [] then error_response errors
    else
      let emailS := strLower (asStr email)
      let planS := strLower (asStr plan)
      { status := "ok"
        message := "Signup processed"
        data := [("user_id", user_id),
                 ("email", Value.str emailS),
                 ("plan", Value.str planS),
                 ("welcome_email_subject",
                   Value.str ("Welcome to the " ++ planS ++ " plan!"))]
        errors := [] }

def paymentRequired : List String := ["payment_id", "user_id", "amount", "currency"]

/-- `currency.upper() in ["BHD", "USD", "EUR"]` for a string value. -/
def valCurrencyOk : Value → Bool
  | .str s => ["BHD", "USD", "EUR"].contains (strUpper s)
  | _ => false

/-- Type/content phase of the payment validator, in source order. -/
def paymentFieldErrors (payment_id user_id amount currency : Value) : List String :=
  (if isinstStr payment_id = false then ["payment_id must be string"] else []) ++
  (if isinstInt user_id = false then ["user_id must be int"] else []) ++
  (if isinstNum amount = false ∨ numVal amount ≤ 0
    then ["amount must be positive number"] else []) ++
  (if isinstStr currency = false ∨ valCurrencyOk currency = false
    then ["Invalid currency"] else [])

/-- Round half to even to the nearest integer (exact-rational model of the
rounding used by Python's `round`). -/
def roundHalfEven (x : ℚ) : Int :=
  let f := ⌊x⌋
  let frac := x - f
  if frac < 1/2 then f
  else if 1/2 < frac then f + 1
  else if f % 2 = 0 then f else f + 1

/-- `round(x, 3)` over exact rationals. -/
def pyRound3 (x : ℚ) : ℚ := (roundHalfEven (x * 1000) : ℚ) / 1000

/-- `handle_payment`. -/
def handle_payment (event : List (String × Value)) : ResultEnvelope :=
  let missing := missingErrors event paymentRequired
  if missing ≠ [] then error_response missing
  else
    let payment_id := (lookup event "payment_id").getD Value.none
    let user_id := (lookup event "user_id").getD Value.none
    let amount := (lookup event "amount").getD Value.none
    let currency := (lookup event "currency").getD Value.none
    let errors := paymentFieldErrors payment_id user_id amount currency
    if errors ≠ [] then error_response errors
    else
      let currencyS := strUpper (asStr currency)
      let amountQ := pyRound3 (numVal amount)
      let fee := pyRound3 (amountQ * (2/100))
      let net_amount := pyRound3 (amountQ - fee)
      { status := "ok"
        message := "Payment processed"
        data := [("payment_id", payment_id),
                 ("user_id", user_id),
                 ("amount", Value.float amountQ),
                 ("currency", Value.str currencyS),
                 ("fee", Value.float fee),
                 ("net_amount", Value.float net_amount)]
        errors := [] }

def uploadRequired : List String := ["file_name", "size_bytes", "bucket", "uploader"]

/-- Type/content phase of the file-upload validator, in source order. -/
def uploadFieldErrors (file_name size_bytes bucket uploader : Value) : List String :=
  (if isinstStr file_name = false then ["file_name must be string"] else []) ++
  (if isinstInt size_bytes = false ∨ intVal size_bytes < 0
    then ["size_bytes must be >= 0"] else []) ++
  (if isinstStr bucket = false then ["bucket must be string"] else []) ++
  (if isinstStr uploader = false ∨ valIsValidEmail uploader = false
    then ["Invalid uploader email"] else [])

/-- Storage-class tiering on the (original) byte size. -/
def storageClassOf (n : Int) : String :=
  if n < 1000000 then "STANDARD"
  else if n < 50000000 then "STANDARD_IA"
  else "GLACIER"

/-- `handle_file_upload`. -/
def handle_file_upload (event : List (String × Value)) : ResultEnvelope :=
  let missing := missingErrors event uploadRequired
  if missing ≠ [] then error_response missing
  else
    let file_name := (lookup event "file_name").getD Value.none
    let size_bytes := (lookup event "size_bytes").getD Value.none
    let bucket := (lookup event "bucket").getD Value.none
    let uploader := (lookup event "uploader").getD Value.none
    let errors := uploadFieldErrors file_name size_bytes bucket uploader
    if errors ≠ [] then error_response errors
    else
      let fileNameS := strStrip (asStr file_name)
      let bucketS := strLower (asStr bucket)
      let uploaderS := strLower (asStr uploader)
      let storage_class := storageClassOf (intVal size_bytes)
      { status := "ok"
        message := "Upload processed"
        data := [("file_name", Value.str fileNameS),
                 ("size_bytes", size_bytes),
                 ("bucket", Value.str bucketS),
                 ("uploader", Value.str uploaderS),
                 ("storage_class", Value.str storage_class)]
        errors := [] }

/-- `handler(event, context)`: dispatch on the `type` field.  `context` is
never inspected. -/
def handler (event : Value) (context : Value) : ResultEnvelope :=
  match event with
  | .dict entries =>
    match lookup entries "type" with
    | Option.some (Value.str s) =>
        if s = "USER_SIGNUP" then handle_user_signup entries
        else if s = "PAYMENT" then handle_payment entries
        else if s = "FILE_UPLOAD" then handle_file_upload entries
        else error_response ["Unknown event type"]
    | _ => error_response ["Unknown event type"]
  | _ => error_response ["Invalid JSON structure"]

/-- The envelope contract shared by every response the handler builds. -/
def EnvelopeInv (r : ResultEnvelope) : Prop :=
  (r.status = "ok" ↔ r.errors = []) ∧
  (r.data = [] ↔ r.status = "error") ∧
  (r.status = "error" → r.message = "Validation failed")

/-- A fully valid FILE_UPLOAD event with the given byte size, used to probe
the storage-class boundaries. -/
def uploadProbe (n : Int) : List (String × Value) :=
  [("type", Value.str "FILE_UPLOAD"), ("file_name", Value.str "report.pdf"),
   ("size_bytes", Value.int n), ("bucket", Value.str "Main"),
   ("uploader", Value.str "user@example.com")]

/-! ### Helper lemmas -/

theorem lookup_ne_none {e : List (String × Value)} {f : String}
    (h : lookup e f ≠ Option.none) : ∃ v, lookup e f = Option.some v := by
  cases hl : lookup e f with
  | none => exact absurd hl h
  | some v => exact ⟨v, rfl⟩

theorem missingErrors_eq_nil (e : List (String × Value)) (fs : List String) :
    missingErrors e fs = [] ↔ ∀ f ∈ fs, lookup e f ≠ Option.none := by
  simp [missingErrors, List.map_eq_nil_iff, List.filter_eq_nil_iff]

theorem missingErrors_subset (e : List (String × Value)) (fs : List String) :
    missingErrors e fs ⊆ fs.map (fun f => "Missing field: " ++ f) :=
  List.map_subset _ (List.filter_subset' _)

theorem envelopeInv_error {l : List String} (h : l ≠ []) :
    EnvelopeInv (error_response l) := by
  simp [EnvelopeInv, error_response, h]

theorem envelopeInv_signup (e : List (String × Value)) :
    EnvelopeInv (handle_user_signup e) := by
  simp only [handle_user_signup]
  split_ifs with h1 h2
  · exact envelopeInv_error h1
  · exact envelopeInv_error h2
  · simp [EnvelopeInv]

theorem envelopeInv_payment (e : List (String × Value)) :
    EnvelopeInv (handle_payment e) := by
  simp only [handle_payment]
  split_ifs with h1 h2
  · exact envelopeInv_error h1
  · exact envelopeInv_error h2
  · simp [EnvelopeInv]

theorem envelopeInv_upload (e : List (String × Value)) :
    EnvelopeInv (handle_file_upload e) := by
  simp only [handle_file_upload]
  split_ifs with h1 h2
  · exact envelopeInv_error h1
  · exact envelopeInv_error h2
  · simp [EnvelopeInv]

theorem envelopeInv_handler (event context : Value) :
    EnvelopeInv (handler event context) := by
  cases event with
  | dict entries =>
    rcases hl : lookup entries "type" with _ | v
    · simp only [handler, hl]
      exact envelopeInv_error (by simp)
    · cases v <;> simp only [handler, hl]
      case str s =>
        split_ifs
        · exact envelopeInv_signup entries
        · exact envelopeInv_payment entries
        · exact envelopeInv_upload entries
        · exact envelopeInv_error (by simp)
      all_goals exact envelopeInv_error (by simp)
  | none => exact envelopeInv_error (by simp)
  | bool b => exact envelopeInv_error (by simp)
  | int n => exact envelopeInv_error (by simp)
  | float q => exact envelopeInv_error (by simp)
  | str s => exact envelopeInv_error (by simp)
  | list elems => exact envelopeInv_error (by simp)

/-- C2: for every input event, the returned envelope has `status = "ok"`
iff `errors` is empty, `data` empty exactly when `status = "error"`, and
every error envelope carries the message `"Validation failed"`. -/
theorem C2_envelope_invariant (event context : Value) :
    ((handler event context).status = "ok" ↔ (handler event context).errors = []) ∧
    ((handler event context).data = [] ↔ (handler event context).status = "error") ∧
    ((handler event context).status = "error" →
      (handler event context).message = "Validation failed") :=
  envelopeInv_handler event context

theorem C2_envelope_invariant_witness :
    (handler (Value.int 0) Value.none).message = "Validation failed" :=
  (C2_envelope_invariant (Value.int 0) Value.none).2.2 rfl

theorem mem_signupFieldErrors {x : String} {u em pl : Value}
    (h : x ∈ signupFieldErrors u em pl) :
    x = "user_id must be int" ∨ x = "Invalid email" ∨ x = "Invalid plan" := by
  unfold signupFieldErrors at h
  split_ifs at h <;> simp at h <;> tauto

theorem mem_signupFieldErrors_intOk {x : String} {u em pl : Value}
    (hu : isinstInt u = true) (h : x ∈ signupFieldErrors u em pl) :
    x = "Invalid email" ∨ x = "Invalid plan" := by
  unfold signupFieldErrors at h
  rw [hu] at h
  split_ifs at h <;> simp at h <;> tauto

theorem mem_paymentFieldErrors {x : String} {p u a c : Value}
    (h : x ∈ paymentFieldErrors p u a c) :
    x = "payment_id must be string" ∨ x = "user_id must be int" ∨
      x = "amount must be positive number" ∨ x = "Invalid currency" := by
  unfold paymentFieldErrors at h
  split_ifs at h <;> simp at h <;> tauto

theorem mem_paymentFieldErrors_intOk {x : String} {p u a c : Value}
    (hu : isinstInt u = true) (h : x ∈ paymentFieldErrors p u a c) :
    x = "payment_id must be string" ∨ x = "amount must be positive number" ∨
      x = "Invalid currency" := by
  unfold paymentFieldErrors at h
  rw [hu] at h
  split_ifs at h <;> simp at h <;> tauto

theorem mem_paymentFieldErrors_amountOk {x : String} {p u a c : Value}
    (h1 : isinstNum a = true) (h2 : ¬ numVal a ≤ 0)
    (h : x ∈ paymentFieldErrors p u a c) :
    x = "payment_id must be string" ∨ x = "user_id must be int" ∨
      x = "Invalid currency" := by
  unfold paymentFieldErrors at h
  rw [h1] at h
  simp only [eq_self_iff_true, Bool.true_eq_false, false_or, if_neg h2] at h
  split_ifs at h <;> simp at h <;> tauto

theorem mem_uploadFieldErrors {x : String} {fn sb b up : Value}
    (h : x ∈ uploadFieldErrors fn sb b up) :
    x = "file_name must be string" ∨ x = "size_bytes must be >= 0" ∨
      x = "bucket must be string" ∨ x = "Invalid uploader email" := by
  unfold uploadFieldErrors at h
  split_ifs at h <;> simp at h <;> tauto

theorem mem_uploadFieldErrors_sizeOk {x : String} {fn sb b up : Value}
    (h1 : isinstInt sb = true) (h2 : ¬ intVal sb < 0)
    (h : x ∈ uploadFieldErrors fn sb b up) :
    x = "file_name must be string" ∨ x = "bucket must be string" ∨
      x = "Invalid uploader email" := by
  unfold uploadFieldErrors at h
  rw [h1] at h
  simp only [Bool.true_eq_false, false_or, if_neg h2] at h
  split_ifs at h <;> simp at h <;> tauto

/-- C3: every non-mapping input yields exactly
`["Invalid JSON structure"]`, and every mapping whose `type` field is not
one of the three recognized event kinds (including an absent or non-string
`type`) yields exactly `["Unknown event type"]`. -/
theorem C3_structural_dispatch :
    (∀ event context : Value, isDict event = false →
        handler event context = error_response ["Invalid JSON structure"]) ∧
    (∀ (entries : List (String × Value)) (context : Value),
        (∀ s : String, lookup entries "type" = Option.some (Value.str s) →
            s ≠ "USER_SIGNUP" ∧ s ≠ "PAYMENT" ∧ s ≠ "FILE_UPLOAD") →
        handler (Value.dict entries) context = error_response ["Unknown event type"]) := by
  constructor
  · intro event context h
    cases event <;> simp_all [handler, isDict]
  · intro entries context h
    rcases hl : lookup entries "type" with _ | v
    · simp [handler, hl]
    · cases v
      case str s =>
        obtain ⟨h1, h2, h3⟩ := h s hl
        simp [handler, hl, h1, h2, h3]
      all_goals simp [handler, hl]

theorem C3_structural_dispatch_witness :
    handler (Value.int 3) Value.none = error_response ["Invalid JSON structure"] ∧
    handler (Value.dict [("type", Value.str "ORDER")]) Value.none =
      error_response ["Unknown event type"] := by
  constructor
  · exact C3_structural_dispatch.1 (Value.int 3) Value.none rfl
  · refine C3_structural_dispatch.2 [("type", Value.str "ORDER")] Value.none ?_
    intro s hs
    simp [lookup] at hs
    subst hs
    decide

/-- C4: a USER_SIGNUP event with absent required fields is rejected with
exactly one `"Missing field: <name>"` per absent field in the order
`user_id`, `email`, `plan`, the type/content phase never runs, and
`{type:"USER_SIGNUP"}` yields exactly the three missing-field errors. -/
theorem C4_presence_phase :
    (∀ e : List (String × Value), missingErrors e signupRequired ≠ [] →
        handle_user_signup e = error_response (missingErrors e signupRequired) ∧
        ∀ x ∈ (handle_user_signup e).errors, ∃ f ∈ signupRequired,
            lookup e f = Option.none ∧ x = "Missing field: " ++ f) ∧
    (handler (Value.dict [("type", Value.str "USER_SIGNUP")]) Value.none).errors =
      ["Missing field: user_id", "Missing field: email", "Missing field: plan"] ∧
    (handler (Value.dict [("type", Value.str "USER_SIGNUP")]) Value.none).status =
      "error" := by
  refine ⟨?_, rfl, rfl⟩
  intro e h
  have hr : handle_user_signup e = error_response (missingErrors e signupRequired) := by
    simp only [handle_user_signup]
    rw [if_pos h]
  refine ⟨hr, ?_⟩
  rw [hr]
  intro x hx
  simp only [error_response] at hx
  simp only [missingErrors, List.mem_map, List.mem_filter] at hx
  obtain ⟨f, ⟨hf, hnone⟩, hxe⟩ := hx
  exact ⟨f, hf, Option.isNone_iff_eq_none.mp hnone, hxe.symm⟩

theorem C4_presence_phase_witness :
    handle_user_signup [] = error_response (missingErrors [] signupRequired) :=
  (C4_presence_phase.1 [] (by decide)).1

/-- C5: the payment type/content phase accumulates all four failures for
`{type:"PAYMENT", payment_id:123, user_id:"x", amount:-5, currency:"XXX"}`:
status `"error"` with exactly one error per field, in source order. -/
theorem C5_payment_accumulation :
    handler (Value.dict
      [("type", Value.str "PAYMENT"), ("payment_id", Value.int 123),
       ("user_id", Value.str "x"), ("amount", Value.int (-5)),
       ("currency", Value.str "XXX")]) Value.none =
      error_response
        ["payment_id must be string", "user_id must be int",
         "amount must be positive number", "Invalid currency"] := rfl

/-- C9: `handler` is a pure function of the event alone; the `context`
argument is never inspected, so any two contexts give identical results. -/
theorem C9_context_independence (event c₁ c₂ : Value) :
    handler event c₁ = handler event c₂ := rfl

theorem handler_signup {entries : List (String × Value)} {context : Value}
    (h : lookup entries "type" = Option.some (Value.str "USER_SIGNUP")) :
    handler (Value.dict entries) context = handle_user_signup entries := by
  simp [handler, h]

theorem handler_payment {entries : List (String × Value)} {context : Value}
    (h : lookup entries "type" = Option.some (Value.str "PAYMENT")) :
    handler (Value.dict entries) context = handle_payment entries := by
  simp [handler, h]

theorem handler_upload {entries : List (String × Value)} {context : Value}
    (h : lookup entries "type" = Option.some (Value.str "FILE_UPLOAD")) :
    handler (Value.dict entries) context = handle_file_upload entries := by
  simp [handler, h]

theorem uploadFieldErrors_nil_size {fn sb b up : Value}
    (h : uploadFieldErrors fn sb b up = []) :
    isinstInt sb = true ∧ 0 ≤ intVal sb := by
  unfold uploadFieldErrors at h
  split_ifs at h with h1 h2 h3 h4 <;> simp_all

/-- C7: on every successful FILE_UPLOAD the storage class in the response
data is determined solely by the original `size_bytes` integer, with tiers
`STANDARD` below 1,000,000, `STANDARD_IA` below 50,000,000, and `GLACIER`
from 50,000,000 on; the boundary sizes 999999 / 1000000 / 49999999 /
50000000 land in STANDARD / STANDARD_IA / STANDARD_IA / GLACIER. -/
theorem C7_storage_class :
    (∀ e : List (String × Value), (handle_file_upload e).status = "ok" →
        ∃ v, lookup e "size_bytes" = Option.some v ∧ isinstInt v = true ∧
          lookup (handle_file_upload e).data "storage_class" =
            Option.some (Value.str
              (if intVal v < 1000000 then "STANDARD"
               else if intVal v < 50000000 then "STANDARD_IA"
               else "GLACIER"))) ∧
    lookup (handler (Value.dict (uploadProbe 999999)) Value.none).data "storage_class" =
      Option.some (Value.str "STANDARD") ∧
    lookup (handler (Value.dict (uploadProbe 1000000)) Value.none).data "storage_class" =
      Option.some (Value.str "STANDARD_IA") ∧
    lookup (handler (Value.dict (uploadProbe 49999999)) Value.none).data "storage_class" =
      Option.some (Value.str "STANDARD_IA") ∧
    lookup (handler (Value.dict (uploadProbe 50000000)) Value.none).data "storage_class" =
      Option.some (Value.str "GLACIER") := by
  refine ⟨?_, rfl, rfl, rfl, rfl⟩
  intro e hok
  simp only [handle_file_upload] at hok ⊢
  split_ifs at hok ⊢ with h1 h2
  · simp [error_response] at hok
  · simp [error_response] at hok
  · have h1' : missingErrors e uploadRequired = [] := not_not.mp h1
    have hsb : lookup e "size_bytes" ≠ Option.none :=
      (missingErrors_eq_nil e uploadRequired).mp h1' "size_bytes" (by decide)
    obtain ⟨v, hv⟩ := lookup_ne_none hsb
    rw [hv] at h2 ⊢
    simp only [Option.getD_some] at h2 ⊢
    obtain ⟨hint, hge⟩ := uploadFieldErrors_nil_size (not_not.mp h2)
    refine ⟨v, rfl, hint, ?_⟩
    simp [lookup, storageClassOf]

theorem C7_storage_class_witness :
    ∃ v, lookup (uploadProbe 123) "size_bytes" = Option.some v ∧ isinstInt v = true ∧
      lookup (handle_file_upload (uploadProbe 123)).data "storage_class" =
        Option.some (Value.str
          (if intVal v < 1000000 then "STANDARD"
           else if intVal v < 50000000 then "STANDARD_IA"
           else "GLACIER")) :=
  C7_storage_class.1 (uploadProbe 123) rfl

theorem signupFieldErrors_eq_nil {u : Value} {em pl : String}
    (hu : isinstInt u = true) (hem : is_valid_email em = true)
    (hpl : strLower pl ∈ (["free", "pro", "edu"] : List String)) :
    signupFieldErrors u (Value.str em) (Value.str pl) = [] := by
  simp [signupFieldErrors, hu, valIsValidEmail, hem, valPlanOk, isinstStr, hpl]

/-- C8: every fully valid USER_SIGNUP event succeeds with message
`"Signup processed"` and data holding the unchanged `user_id`, the
lowercased `email` and `plan`, and the welcome subject built from the
lowercased plan; the spec's concrete example produces exactly that data. -/
theorem C8_happy_signup :
    (∀ (entries : List (String × Value)) (context uid : Value) (em pl : String),
        lookup entries "type" = Option.some (Value.str "USER_SIGNUP") →
        lookup entries "user_id" = Option.some uid →
        lookup entries "email" = Option.some (Value.str em) →
        lookup entries "plan" = Option.some (Value.str pl) →
        isinstInt uid = true →
        is_valid_email em = true →
        strLower pl ∈ (["free", "pro", "edu"] : List String) →
        handler (Value.dict entries) context =
          { status := "ok"
            message := "Signup processed"
            data := [("user_id", uid),
                     ("email", Value.str (strLower em)),
                     ("plan", Value.str (strLower pl)),
                     ("welcome_email_subject",
                       Value.str ("Welcome to the " ++ strLower pl ++ " plan!"))]
            errors := [] }) ∧
    handler (Value.dict
        [("type", Value.str "USER_SIGNUP"), ("user_id", Value.int 1),
         ("email", Value.str "A@B.COM"), ("plan", Value.str "FREE")]) Value.none =
      { status := "ok"
        message := "Signup processed"
        data := [("user_id", Value.int 1), ("email", Value.str "a@b.com"),
                 ("plan", Value.str "free"),
                 ("welcome_email_subject", Value.str "Welcome to the free plan!")]
        errors := [] } := by
  refine ⟨?_, rfl⟩
  intro entries context uid em pl htype huid hem hpl hint hvalid hplan
  rw [handler_signup htype]
  have hmiss : missingErrors entries signupRequired = [] := by
    rw [missingErrors_eq_nil]
    intro f hf
    simp only [signupRequired, List.mem_cons, List.not_mem_nil, or_false] at hf
    rcases hf with rfl | rfl | rfl <;> simp [huid, hem, hpl]
  simp only [handle_user_signup, hmiss, huid, hem, hpl, Option.getD_some,
    signupFieldErrors_eq_nil hint hvalid hplan, asStr]
  simp

theorem C8_happy_signup_witness :
    handler (Value.dict
        [("type", Value.str "USER_SIGNUP"), ("user_id", Value.int 7),
         ("email", Value.str "x@y.zz"), ("plan", Value.str "PRO")]) Value.none =
      { status := "ok"
        message := "Signup processed"
        data := [("user_id", Value.int 7), ("email", Value.str "x@y.zz"),
                 ("plan", Value.str "pro"),
                 ("welcome_email_subject", Value.str "Welcome to the pro plan!")]
        errors := [] } :=
  C8_happy_signup.1 _ Value.none (Value.int 7) "x@y.zz" "PRO"
    rfl rfl rfl rfl rfl rfl (by decide)

/-- C10: presence is decided by key membership alone — whenever every
required key is present (whatever its value, `None` included), no
validator ever emits an error of the form `"Missing field: <name>"`; a
USER_SIGNUP with `user_id: None` is instead reported by the phase-2 type
error `"user_id must be int"`. -/
theorem C10_presence_by_key :
    (∀ e : List (String × Value),
        (∀ f ∈ signupRequired, lookup e f ≠ Option.none) →
        ∀ x ∈ (handle_user_signup e).errors, hasMissingForm x = false) ∧
    (∀ e : List (String × Value),
        (∀ f ∈ paymentRequired, lookup e f ≠ Option.none) →
        ∀ x ∈ (handle_payment e).errors, hasMissingForm x = false) ∧
    (∀ e : List (String × Value),
        (∀ f ∈ uploadRequired, lookup e f ≠ Option.none) →
        ∀ x ∈ (handle_file_upload e).errors, hasMissingForm x = false) ∧
    (handler (Value.dict
        [("type", Value.str "USER_SIGNUP"), ("user_id", Value.none),
         ("email", Value.str "a@b.c"), ("plan", Value.str "free")]) Value.none).errors =
      ["user_id must be int"] := by
  refine ⟨?_, ?_, ?_, rfl⟩
  · intro e h x hx
    have hm : missingErrors e signupRequired = [] := (missingErrors_eq_nil _ _).mpr h
    simp only [handle_user_signup, hm] at hx
    split_ifs at hx with hni hfe
    · exact absurd rfl hni
    · simp only [error_response] at hx
      rcases mem_signupFieldErrors hx with rfl | rfl | rfl <;> decide
    · simp at hx
  · intro e h x hx
    have hm : missingErrors e paymentRequired = [] := (missingErrors_eq_nil _ _).mpr h
    simp only [handle_payment, hm] at hx
    split_ifs at hx with hni hfe
    · exact absurd rfl hni
    · simp only [error_response] at hx
      rcases mem_paymentFieldErrors hx with rfl | rfl | rfl | rfl <;> decide
    · simp at hx
  · intro e h x hx
    have hm : missingErrors e uploadRequired = [] := (missingErrors_eq_nil _ _).mpr h
    simp only [handle_file_upload, hm] at hx
    split_ifs at hx with hni hfe
    · exact absurd rfl hni
    · simp only [error_response] at hx
      rcases mem_uploadFieldErrors hx with rfl | rfl | rfl | rfl <;> decide
    · simp at hx

theorem C10_presence_by_key_witness :
    hasMissingForm "user_id must be int" = false :=
  C10_presence_by_key.1
    [("user_id", Value.none), ("email", Value.none), ("plan", Value.none)]
    (by
      intro f hf
      simp only [signupRequired, List.mem_cons, List.not_mem_nil, or_false] at hf
      rcases hf with rfl | rfl | rfl <;> simp [lookup])
    "user_id must be int" (by decide)

/-- C1 as stated is false on the code: a USER_SIGNUP event whose `user_id`
is the boolean `true` is accepted (`status = "ok"`), and no
`"user_id must be int"` error is produced — `isinstance(True, int)` holds
in Python because `bool` subclasses `int`. -/
theorem C1_boolean_counterexample :
    (handler (Value.dict
        [("type", Value.str "USER_SIGNUP"), ("user_id", Value.bool true),
         ("email", Value.str "a@b.c"), ("plan", Value.str "free")]) Value.none).status =
      "ok" ∧
    "user_id must be int" ∉
      (handler (Value.dict
          [("type", Value.str "USER_SIGNUP"), ("user_id", Value.bool true),
           ("email", Value.str "a@b.c"), ("plan", Value.str "free")]) Value.none).errors :=
  ⟨rfl, by decide⟩

/-- C1 amended: boolean values DO count as integers under the code's
`isinstance` checks.  A boolean `user_id` never yields
`"user_id must be int"` (signup or payment), a boolean `size_bytes` never
yields `"size_bytes must be >= 0"`, and `amount: True` passes the numeric
check (as the number 1), never yielding
`"amount must be positive number"`. -/
theorem C1_boolean_accepted (e : List (String × Value)) (b : Bool) :
    (lookup e "user_id" = Option.some (Value.bool b) →
        "user_id must be int" ∉ (handle_user_signup e).errors ∧
        "user_id must be int" ∉ (handle_payment e).errors) ∧
    (lookup e "size_bytes" = Option.some (Value.bool b) →
        "size_bytes must be >= 0" ∉ (handle_file_upload e).errors) ∧
    (lookup e "amount" = Option.some (Value.bool true) →
        "amount must be positive number" ∉ (handle_payment e).errors) := by
  refine ⟨fun hu => ⟨?_, ?_⟩, fun hs => ?_, fun ha => ?_⟩
  · intro hx
    simp only [handle_user_signup] at hx
    split_ifs at hx with h1 h2
    · simp only [error_response] at hx
      have := missingErrors_subset e signupRequired hx
      simp [signupRequired] at this
    · rw [hu] at hx
      simp only [Option.getD_some, error_response] at hx
      exact absurd (mem_signupFieldErrors_intOk (by rfl) hx) (by decide)
    · simp at hx
  · intro hx
    simp only [handle_payment] at hx
    split_ifs at hx with h1 h2
    · simp only [error_response] at hx
      have := missingErrors_subset e paymentRequired hx
      simp [paymentRequired] at this
    · rw [hu] at hx
      simp only [Option.getD_some, error_response] at hx
      exact absurd (mem_paymentFieldErrors_intOk (by rfl) hx) (by decide)
    · simp at hx
  · intro hx
    simp only [handle_file_upload] at hx
    split_ifs at hx with h1 h2
    · simp only [error_response] at hx
      have := missingErrors_subset e uploadRequired hx
      simp [uploadRequired] at this
    · rw [hs] at hx
      simp only [Option.getD_some, error_response] at hx
      exact absurd (mem_uploadFieldErrors_sizeOk (by rfl) (by cases b <;> decide) hx)
        (by decide)
    · simp at hx
  · intro hx
    simp only [handle_payment] at hx
    split_ifs at hx with h1 h2
    · simp only [error_response] at hx
      have := missingErrors_subset e paymentRequired hx
      simp [paymentRequired] at this
    · rw [ha] at hx
      simp only [Option.getD_some, error_response] at hx
      exact absurd (mem_paymentFieldErrors_amountOk (by rfl) (by decide) hx) (by decide)
    · simp at hx

theorem C1_boolean_accepted_witness :
    "user_id must be int" ∉ (handle_user_signup [("user_id", Value.bool true)]).errors :=
  ((C1_boolean_accepted [("user_id", Value.bool true)] true).1 rfl).1
